import Mathlib

/-!
Verification development for the seren-capture-backend repository.

The development shallowly embeds the two core services:

* `src/services/captureService.js` — the session state machine
  (`startCaptureSession`, `setCaptureMode`, `processCapture`,
  `completeSession`, `getSession`, `getAvailableCaptures`,
  `isSessionComplete`, `getNextAction`, `cleanupExpiredSessions`,
  `getActiveSessionsCount`).
* `src/services/imageStorage.js` — the image storage pipeline
  (`storeImage`, `encryptImage`, `decryptImage`, `retrieveImage`).

Conventions of the embedding:

* The in-memory `Map` of live sessions is an association list
  `List (String × Session)`; JavaScript `Map` keys are unique, which is
  carried as a `Nodup` hypothesis where a theorem needs it.
* ISO-8601 timestamps are modelled as `Int` epoch milliseconds; the
  JavaScript code converts between `Date` and ISO strings bijectively,
  and only millisecond arithmetic is ever performed on them.
* Thrown `Error` objects are modelled as `Except String` values carrying
  the error message; a `try { ... } catch (e) { throw e }` block that
  logs and rethrows is the identity on the error.
* External effects (the resident-directory lookup, the `sharp` image
  codec, filesystem writes and reads, UUID generation, clocks) are
  passed in as explicit oracle parameters, mirroring how the
  repository's own unit tests mock them.
-/

namespace SerenCapture

instance {ε α : Type} [DecidableEq ε] [DecidableEq α] : DecidableEq (Except ε α)
  | .error x, .error y =>
      if h : x = y then isTrue (by rw [h]) else isFalse (by simp [h])
  | .error _, .ok _ => isFalse (by simp)
  | .ok _, .error _ => isFalse (by simp)
  | .ok x, .ok y =>
      if h : x = y then isTrue (by rw [h]) else isFalse (by simp [h])

/-- Resident identity snapshot attached to sessions and image metadata
(`id`, `name`, `unitNumber` are the fields the services read). -/
structure ResidentInfo where
  id : String
  name : String
  unitNumber : String
  deriving DecidableEq

/-- The capture descriptor recorded in `session.captures[captureType]`
by `processCapture` (captureService.js lines 157–162). -/
structure CaptureRecord where
  imageId : String
  filename : String
  timestamp : Int
  fileSize : Nat
  deriving DecidableEq

/-- The `captures` object of a session: one slot per capture type,
initialised to `{ person: null, vehicle: null }`. -/
structure Captures where
  person : Option CaptureRecord
  vehicle : Option CaptureRecord
  deriving DecidableEq

/-- Property read `session.captures[captureType]`. Only the keys
`"person"` and `"vehicle"` are ever present on the object. -/
def Captures.get (c : Captures) (t : String) : Option CaptureRecord :=
  if t = "person" then c.person
  else if t = "vehicle" then c.vehicle
  else none

/-- Property write `session.captures[captureType] = r`. -/
def Captures.set (c : Captures) (t : String) (r : CaptureRecord) : Captures :=
  if t = "person" then { c with person := some r }
  else if t = "vehicle" then { c with vehicle := some r }
  else c

/-- A capture session (captureService.js lines 64–75).  `mode` is `none`
until `setCaptureMode` runs (`null` in the source). -/
structure Session where
  id : String
  otp : String
  residentInfo : ResidentInfo
  status : String
  createdAt : Int
  updatedAt : Option Int
  completedAt : Option Int
  captures : Captures
  mode : Option String
  deriving DecidableEq

/-- The `activeSessions` JavaScript `Map`, as an association list in
insertion order. -/
abbrev SessionMap := List (String × Session)

/-- `Map.get`: first (unique) entry with the given key. -/
def mapGet : SessionMap → String → Option Session
  | [], _ => none
  | (k, v) :: rest, sid => if k = sid then some v else mapGet rest sid

/-- `Map.set`: replace the entry in place if the key exists, otherwise
append. -/
def mapSet : SessionMap → String → Session → SessionMap
  | [], k, v => [(k, v)]
  | (k', v') :: rest, k, v =>
      if k' = k then (k, v) :: rest else (k', v') :: mapSet rest k v

/-- `Map.delete`: drop the entry with the given key. -/
def mapDelete (m : SessionMap) (k : String) : SessionMap :=
  m.filter (fun e => decide (e.1 ≠ k))

/-- Keys of a JavaScript `Map` are unique. -/
abbrev mapWF (m : SessionMap) : Prop :=
  (m.map Prod.fst).Nodup

/-- `getAvailableCaptures(mode)` (captureService.js lines 242–251):
the ordered list of capture types required/permitted by a mode. -/
def getAvailableCaptures : Option String → List String
  | some "pedestrian" => ["person"]
  | some "vehicle" => ["person", "vehicle"]
  | _ => []

/-- `isSessionComplete(session)` (lines 258–261): every required capture
type has a non-null descriptor. -/
def isSessionComplete (s : Session) : Bool :=
  (getAvailableCaptures s.mode).all (fun t => (s.captures.get t).isSome)

/-- `getNextAction(session)` (lines 269–280): `complete_session` when no
required type is missing, otherwise `capture_<first missing type>`.
(The source's second parameter `completedCapture` is unused.) -/
def getNextAction (s : Session) : String :=
  match (getAvailableCaptures s.mode).filter (fun t => (s.captures.get t).isNone) with
  | [] => "complete_session"
  | t :: _ => "capture_" ++ t

/-- `getSession(sessionId)` (lines 229–235). -/
def getSession (st : SessionMap) (sid : String) : Except String Session :=
  match mapGet st sid with
  | none => .error ("Session not found: " ++ sid)
  | some s => .ok s

/-- Drop leading whitespace characters. -/
def dropLeadingWS : List Char → List Char
  | [] => []
  | c :: cs => if c.isWhitespace then dropLeadingWS cs else c :: cs

/-- `String.prototype.trim()`: strip whitespace from both ends. -/
def strTrim (s : String) : String :=
  String.mk ((dropLeadingWS ((dropLeadingWS s.data).reverse)).reverse)

/-- Result object of `startCaptureSession`. -/
structure StartResponse where
  sessionId : String
  residentInfo : ResidentInfo
  status : String
  deriving DecidableEq

/-- `startCaptureSession(otp)` (lines 53–91).  The directory lookup
(`searchByOTP`) outcome and the generated session id are oracle
parameters; `now` is the clock reading. -/
def startCaptureSession (st : SessionMap) (otp : String)
    (searchByOTP : Except String ResidentInfo) (newSid : String) (now : Int) :
    SessionMap × Except String StartResponse :=
  if strTrim otp = "" then
    (st, .error "OTP is required and must be a non-empty string")
  else
    match searchByOTP with
    | .error e => (st, .error e)
    | .ok ri =>
        let s : Session :=
          { id := newSid, otp := strTrim otp, residentInfo := ri,
            status := "active", createdAt := now, updatedAt := none,
            completedAt := none,
            captures := { person := none, vehicle := none }, mode := none }
        (mapSet st newSid s,
          .ok { sessionId := newSid, residentInfo := ri,
                status := "ready_for_mode_selection" })

/-- Result object of `setCaptureMode`. -/
structure SetModeResponse where
  sessionId : String
  mode : String
  status : String
  availableCaptures : List String
  deriving DecidableEq

/-- `setCaptureMode(sessionId, mode)` (lines 99–122). -/
def setCaptureMode (st : SessionMap) (sid mode : String) (now : Int) :
    SessionMap × Except String SetModeResponse :=
  match mapGet st sid with
  | none => (st, .error ("Session not found: " ++ sid))
  | some s =>
      if ¬(mode = "pedestrian" ∨ mode = "vehicle") then
        (st, .error "Invalid capture mode. Must be \"pedestrian\" or \"vehicle\"")
      else
        let s' := { s with mode := some mode, updatedAt := some now }
        (mapSet st sid s',
          .ok { sessionId := sid, mode := mode, status := "ready_for_capture",
                availableCaptures := getAvailableCaptures (some mode) })

/-- The fields of the `imageStorage.storeImage` result that
`processCapture` reads (`fileId`, `filename`, `metadata.fileSize`). -/
structure StorageResult where
  fileId : String
  filename : String
  fileSize : Nat
  deriving DecidableEq

/-- Result object of `processCapture`. -/
structure CaptureResponse where
  success : Bool
  captureType : String
  imageId : String
  sessionComplete : Bool
  nextAction : String
  deriving DecidableEq

/-- The session update of a successful `processCapture` before the
completion check (lines 157–163): record the descriptor and stamp
`updatedAt`. -/
def updCore (s : Session) (ct : String) (r : StorageResult) (now : Int) : Session :=
  { s with
    captures := s.captures.set ct
      { imageId := r.fileId, filename := r.filename,
        timestamp := now, fileSize := r.fileSize },
    updatedAt := some now }

/-- The full session update of a successful `processCapture` (lines
157–172): after recording the descriptor, if the session is now
complete, set `status` and stamp `completedAt`. -/
def updSession (s : Session) (ct : String) (r : StorageResult) (now : Int) : Session :=
  if isSessionComplete (updCore s ct r now) then
    { updCore s ct r now with status := "completed", completedAt := some now }
  else updCore s ct r now

/-- `processCapture(sessionId, captureType, imageBuffer)`
(lines 131–186).  The awaited `imageStorage.storeImage` outcome is the
oracle parameter `storeImageResult` (the buffer flows only into it); the
session is mutated only after the storage call succeeds, so on a storage
error the map is returned unchanged and the error is rethrown as-is.
The returned `sessionComplete` flag is the completion check made on the
captures-updated session, and `nextAction` is computed on the final
session state, as in the source. -/
def processCapture (st : SessionMap) (sid captureType : String)
    (storeImageResult : Except String StorageResult) (now : Int) :
    SessionMap × Except String CaptureResponse :=
  match mapGet st sid with
  | none => (st, .error ("Session not found: " ++ sid))
  | some s =>
      if ¬(captureType = "person" ∨ captureType = "vehicle") then
        (st, .error "Invalid capture type. Must be \"person\" or \"vehicle\"")
      else if s.mode = some "pedestrian" ∧ captureType = "vehicle" then
        (st, .error "Vehicle capture not allowed in pedestrian mode")
      else
        match storeImageResult with
        | .error e => (st, .error e)
        | .ok r =>
            (mapSet st sid (updSession s captureType r now),
              .ok { success := true, captureType := captureType,
                    imageId := r.fileId,
                    sessionComplete := isSessionComplete (updCore s captureType r now),
                    nextAction := getNextAction (updSession s captureType r now) })

/-- `Object.values(session.captures).filter(c => c !== null).length`
(line 209). -/
def totalCapturesOf (c : Captures) : Nat :=
  ([c.person, c.vehicle].filter Option.isSome).length

/-- Summary object returned by `completeSession`. -/
structure SessionSummary where
  sessionId : String
  residentInfo : ResidentInfo
  mode : Option String
  captures : Captures
  createdAt : Int
  completedAt : Option Int
  totalCaptures : Nat
  deriving DecidableEq

/-- `completeSession(sessionId)` (lines 193–222). -/
def completeSession (st : SessionMap) (sid : String) :
    SessionMap × Except String SessionSummary :=
  match mapGet st sid with
  | none => (st, .error ("Session not found: " ++ sid))
  | some s =>
      if s.status ≠ "completed" then
        (st, .error "Session is not ready for completion")
      else
        (mapDelete st sid,
          .ok { sessionId := sid, residentInfo := s.residentInfo,
                mode := s.mode, captures := s.captures,
                createdAt := s.createdAt, completedAt := s.completedAt,
                totalCaptures := totalCapturesOf s.captures })

/-- `getActiveSessionsCount()` (lines 294–296). -/
def getActiveSessionsCount (st : SessionMap) : Nat :=
  st.length

/-- `cleanupExpiredSessions(maxAge)` (lines 302–319): collect the ids of
sessions whose age strictly exceeds `maxAge`, delete each, return how
many were collected. -/
def cleanupExpiredSessions (st : SessionMap) (maxAge now : Int) :
    SessionMap × Nat :=
  let expired := (st.filter (fun e => decide (now - e.2.createdAt > maxAge))).map Prod.fst
  (expired.foldl mapDelete st, expired.length)

/-!
## Image storage engine (`src/services/imageStorage.js`)

Buffers are modelled as `List Nat` (byte lists).  The `node:crypto`
module and the filesystem are the execution environment: what the code
reads off them is modelled from that environment's documented API.
-/

/-- Model of an AES-256-GCM implementation as `node:crypto` would
provide one: encryption maps key, iv, additional authenticated data and
plaintext to ciphertext plus authentication tag; decryption verifies the
tag and returns the plaintext only on success. -/
structure GCMImpl where
  encrypt : List Nat → List Nat → List Nat → List Nat → List Nat × List Nat
  decrypt : List Nat → List Nat → List Nat → List Nat → List Nat → Option (List Nat)

/-- The member `createCipherGCM` that `encryptImage` (imageStorage.js
line 159) reads off the `node:crypto` module.  Node's crypto API exposes
`createCipheriv` / `createDecipheriv`, but it has no member named
`createCipherGCM`, so this property access evaluates to `undefined`:
modelled as `none`.  Invoking it raises a `TypeError`, which the
surrounding `try/catch` turns into the generic encryption failure. -/
def cryptoCreateCipherGCM : Option GCMImpl := none

/-- The member `createDecipherGCM` that `decryptImage` (line 190) reads
off `node:crypto`; like `createCipherGCM` it does not exist in the Node
crypto API, so the access yields `undefined` (`none`). -/
def cryptoCreateDecipherGCM : Option GCMImpl := none

/-- The fixed authentication context `Buffer.from('seren-capture',
'utf8')` bound via `setAAD` (lines 160 and 191). -/
def serenAAD : List Nat :=
  [115, 101, 114, 101, 110, 45, 99, 97, 112, 116, 117, 114, 101]

/-- `encryptImage(imageBuffer)` (lines 153–173): draw a fresh 16-byte
`iv` (passed in as the randomness oracle), encrypt under AES-256-GCM
with the service key binding `serenAAD`, and lay the output out as
`iv ∥ authTag ∥ ciphertext`.  Because `crypto.createCipherGCM` is
`undefined`, the call throws and the `catch` yields the generic
failure. -/
def encryptImage (key iv imageBuffer : List Nat) : Except String (List Nat) :=
  match cryptoCreateCipherGCM with
  | none => .error "Failed to encrypt image"
  | some g =>
      let ct := g.encrypt key iv serenAAD imageBuffer
      .ok (iv ++ ct.2 ++ ct.1)

/-- `decryptImage(encryptedBuffer)` (lines 180–202): split the stored
bytes as `iv := [0,16)`, `authTag := [16,32)`, `ciphertext := [32,…)`,
then decrypt verifying the tag; any failure — including the
`TypeError` from the nonexistent `crypto.createDecipherGCM` member and
a tag-verification failure — becomes the generic decryption failure. -/
def decryptImage (key encryptedBuffer : List Nat) : Except String (List Nat) :=
  match cryptoCreateDecipherGCM with
  | none => .error "Failed to decrypt image"
  | some g =>
      let iv := encryptedBuffer.take 16
      let authTag := (encryptedBuffer.drop 16).take 16
      let encrypted := encryptedBuffer.drop 32
      match g.decrypt key iv serenAAD authTag encrypted with
      | none => .error "Failed to decrypt image"
      | some d => .ok d

/-- Persisted metadata record (lines 79–94). -/
structure ImageMetadata where
  id : String
  filename : String
  filePath : String
  captureType : String
  timestamp : Int
  residentInfo : ResidentInfo
  fileSize : Nat
  originalSize : Nat
  compressionRatio : ℚ
  checksum : String
  deriving DecidableEq

/-- Result object of a successful `storeImage`. -/
structure StoreResponse where
  success : Bool
  fileId : String
  filename : String
  filePath : String
  metadata : ImageMetadata
  deriving DecidableEq

/-- External effects consumed by `storeImage`, passed as oracles: the
generated uuid, the sanitized timestamp string, the `sharp`
re-encoding pipeline (`processImage`), the `this.encryptImage` method
call, the sha-256 hex digest, and the two filesystem writes. -/
structure StoreEnv where
  uuid : String
  timestampStr : String
  processImage : List Nat → Except String (List Nat)
  encryptImage : List Nat → Except String (List Nat)
  sha256hex : List Nat → String
  writeFile : Except String Unit
  writeJson : Except String Unit

/-- `storeImage(imageBuffer, metadata)` (lines 47–112), step by step in
source order: validate the buffer, derive filename and path, re-encode,
encrypt, write the encrypted bytes, build the metadata record
(`fileSize` = encrypted length, `originalSize` = input length,
`compressionRatio = (1 − encrypted/original) · 100`), persist the
metadata.  Any step failure aborts the whole call with that error. -/
def storeImage (env : StoreEnv) (maxFileSize : Nat) (imageBuffer : List Nat)
    (residentInfo : ResidentInfo) (captureType : String) (timestamp : Int) :
    Except String StoreResponse :=
  if imageBuffer.length = 0 then
    .error "Image buffer is empty"
  else if imageBuffer.length > maxFileSize then
    .error ("Image size exceeds maximum allowed size of " ++ toString maxFileSize ++ " bytes")
  else
    let fileId := env.uuid
    let filename := fileId ++ "_" ++ env.timestampStr ++ ".jpg"
    let subDir := if captureType = "vehicle" then "vehicle" else "person"
    let filePath := subDir ++ "/" ++ filename
    match env.processImage imageBuffer with
    | .error e => .error e
    | .ok processedImage =>
        match env.encryptImage processedImage with
        | .error e => .error e
        | .ok encryptedImage =>
            match env.writeFile with
            | .error e => .error e
            | .ok _ =>
                let imageMetadata : ImageMetadata :=
                  { id := fileId, filename := filename, filePath := filePath,
                    captureType := captureType, timestamp := timestamp,
                    residentInfo := residentInfo,
                    fileSize := encryptedImage.length,
                    originalSize := imageBuffer.length,
                    compressionRatio :=
                      (1 - (encryptedImage.length : ℚ) / (imageBuffer.length : ℚ)) * 100,
                    checksum := env.sha256hex encryptedImage }
                match env.writeJson with
                | .error e => .error e
                | .ok _ =>
                    .ok { success := true, fileId := fileId, filename := filename,
                          filePath := filePath, metadata := imageMetadata }

/-- `retrieveImage(imageId)` (lines 223–241): load the metadata record
(the filesystem read outcome is the oracle `metadataLookup`), load the
encrypted bytes (`readFileResult`), decrypt, and return bytes plus
metadata.  The single `catch` block wraps every failure — a missing
metadata file, a missing image file, and a decryption/authentication
failure alike — into the one generic message. -/
def retrieveImage (metadataLookup : Option ImageMetadata)
    (readFileResult : Except String (List Nat)) (key : List Nat) :
    Except String (List Nat × ImageMetadata) :=
  match metadataLookup with
  | none => .error "Failed to retrieve image"
  | some metadata =>
      match readFileResult with
      | .error _ => .error "Failed to retrieve image"
      | .ok encryptedImage =>
          match decryptImage key encryptedImage with
          | .error _ => .error "Failed to retrieve image"
          | .ok decryptedImage => .ok (decryptedImage, metadata)

/-!
## Service operations as a transition system

For claims about operation sequences, a single service operation is an
`Op` carrying its inputs together with the outcomes of its external
effects, and `step` is the state transition it induces on the live
session map. -/

/-- One invocation of a public `CaptureService` operation. -/
inductive Op where
  | start (otp : String) (searchByOTP : Except String ResidentInfo)
      (newSid : String) (now : Int)
  | setMode (sid mode : String) (now : Int)
  | capture (sid captureType : String)
      (storeImageResult : Except String StorageResult) (now : Int)
  | complete (sid : String)
  | cleanup (maxAge now : Int)

/-- Effect of one operation on the live session mapping. -/
def step (st : SessionMap) : Op → SessionMap
  | .start otp search newSid now => (startCaptureSession st otp search newSid now).1
  | .setMode sid mode now => (setCaptureMode st sid mode now).1
  | .capture sid t r now => (processCapture st sid t r now).1
  | .complete sid => (completeSession st sid).1
  | .cleanup maxAge now => (cleanupExpiredSessions st maxAge now).1

/-- Effect of a sequence of operations. -/
def runOps (st : SessionMap) (ops : List Op) : SessionMap :=
  ops.foldl step st

/-- `op` is not a `setCaptureMode` call, and if it is a
`startCaptureSession` its generated session id is not `sid` (the
service generates collision-resistant ids that are never reused). -/
def Op.sparesMode (sid : String) : Op → Prop
  | .setMode _ _ _ => False
  | .start _ _ newSid _ => newSid ≠ sid
  | _ => True

section Sanity

def riT : ResidentInfo := { id := "123", name := "John Doe", unitNumber := "A101" }

def sessT : Session :=
  { id := "s1", otp := "123456", residentInfo := riT, status := "active",
    createdAt := 0, updatedAt := none, completedAt := none,
    captures := { person := none, vehicle := none }, mode := none }

/-- A live session in pedestrian mode with no captures yet. -/
def sessPedT : Session := { sessT with mode := some "pedestrian", updatedAt := some 1 }

/-- A live session in vehicle mode with no captures yet. -/
def sessVehT : Session := { sessT with mode := some "vehicle", updatedAt := some 1 }

def capT : CaptureRecord :=
  { imageId := "img-123", filename := "image.jpg", timestamp := 2, fileSize := 1024 }

/-- A pedestrian-mode session whose required capture is recorded and
whose status is `completed`. -/
def sessDoneT : Session :=
  { sessT with
    mode := some "pedestrian", status := "completed",
    updatedAt := some 2, completedAt := some 2,
    captures := { person := some capT, vehicle := none } }

def srT : StorageResult :=
  { fileId := "img-123", filename := "image.jpg", fileSize := 1024 }

/-- The state of `sessPedT` after a successful person capture at time 2:
descriptor recorded, session completed. -/
def sessPedDoneT : Session :=
  { id := "s1", otp := "123456", residentInfo := riT, status := "completed",
    createdAt := 0, updatedAt := some 2, completedAt := some 2,
    captures := { person := some capT, vehicle := none },
    mode := some "pedestrian" }

/-- The live mapping after the completed pedestrian session
`sessPedDoneT` is re-moded to `vehicle` (a transition `setCaptureMode`
permits unconditionally). -/
def stWrongMode : SessionMap :=
  (setCaptureMode [("s1", sessPedDoneT)] "s1" "vehicle" 3).1

/-- The live mapping after a further successful person capture on the
re-moded session: status is still `completed`, yet the vehicle
descriptor required by the new mode is absent. -/
def stWrongModeCaptured : SessionMap :=
  (processCapture stWrongMode "s1" "person" (.ok srT) 4).1

/-- A storage-effect environment whose external steps all succeed:
re-encoding is the identity and encryption prepends one byte. -/
def envT : StoreEnv :=
  { uuid := "f1", timestampStr := "2026-01-01T00-00-00-000Z",
    processImage := fun b => .ok b,
    encryptImage := fun b => .ok (0 :: b),
    sha256hex := fun _ => "cafebabe",
    writeFile := .ok (), writeJson := .ok () }

/-- The result of `storeImage envT _ [1, 2, 3, 4] riT "person" 0`:
4 input bytes become 5 stored bytes, so the "compression" ratio is
`(1 − 5/4) · 100 = −25` percent. -/
def resT : StoreResponse :=
  { success := true, fileId := "f1",
    filename := "f1_2026-01-01T00-00-00-000Z.jpg",
    filePath := "person/f1_2026-01-01T00-00-00-000Z.jpg",
    metadata :=
      { id := "f1", filename := "f1_2026-01-01T00-00-00-000Z.jpg",
        filePath := "person/f1_2026-01-01T00-00-00-000Z.jpg",
        captureType := "person", timestamp := 0, residentInfo := riT,
        fileSize := 5, originalSize := 4,
        compressionRatio := (1 - ((5 : ℕ) : ℚ) / ((4 : ℕ) : ℚ)) * 100,
        checksum := "cafebabe" } }

example :
    (startCaptureSession [] "123456" (.ok riT) "s1" 0).2 =
      .ok { sessionId := "s1", residentInfo := riT,
            status := "ready_for_mode_selection" } := by decide

example :
    (setCaptureMode [("s1", sessT)] "s1" "pedestrian" 1).2 =
      .ok { sessionId := "s1", mode := "pedestrian",
            status := "ready_for_capture", availableCaptures := ["person"] } := by
  decide

example :
    (processCapture
        (setCaptureMode [("s1", sessT)] "s1" "pedestrian" 1).1
        "s1" "person" (.ok { fileId := "img-123", filename := "image.jpg", fileSize := 1024 }) 2).2 =
      .ok { success := true, captureType := "person", imageId := "img-123",
            sessionComplete := true, nextAction := "complete_session" } := by
  decide

example :
    (processCapture
        (setCaptureMode [("s1", sessT)] "s1" "vehicle" 1).1
        "s1" "person" (.ok { fileId := "img-123", filename := "image.jpg", fileSize := 1024 }) 2).2 =
      .ok { success := true, captureType := "person", imageId := "img-123",
            sessionComplete := false, nextAction := "capture_vehicle" } := by
  decide

example :
    (processCapture
        (setCaptureMode [("s1", sessT)] "s1" "pedestrian" 1).1
        "s1" "vehicle" (.ok { fileId := "i", filename := "f", fileSize := 1 }) 2).2 =
      .error "Vehicle capture not allowed in pedestrian mode" := by decide

example : cleanupExpiredSessions [("s1", sessT)] 0 0 = ([("s1", sessT)], 0) := by
  decide

example : cleanupExpiredSessions [("s1", sessT)] 0 5 = ([], 1) := by
  decide

end Sanity

/-!
## Lemmas about the session map and completion predicate
-/

theorem mapGet_mapSet_self (st : SessionMap) (k : String) (v : Session) :
    mapGet (mapSet st k v) k = some v := by
  induction st with
  | nil => simp [mapSet, mapGet]
  | cons e rest ih =>
      obtain ⟨k', v'⟩ := e
      by_cases h : k' = k
      · simp [mapSet, mapGet, h]
      · simp [mapSet, mapGet, h, ih]

theorem mapGet_mapSet_ne (st : SessionMap) (k k2 : String) (v : Session)
    (h : k2 ≠ k) : mapGet (mapSet st k v) k2 = mapGet st k2 := by
  have h' : ¬ k = k2 := fun hh => h hh.symm
  induction st with
  | nil => simp [mapSet, mapGet, h']
  | cons e rest ih =>
      obtain ⟨k', v'⟩ := e
      by_cases h1 : k' = k
      · subst h1
        simp [mapSet, mapGet, h']
      · by_cases h2 : k' = k2 <;> simp [mapSet, mapGet, h1, h2, ih, h]

theorem mapGet_mapDelete (st : SessionMap) (k k2 : String) :
    mapGet (mapDelete st k) k2 = if k2 = k then none else mapGet st k2 := by
  induction st with
  | nil => simp [mapDelete, mapGet]
  | cons e rest ih =>
      obtain ⟨a, b⟩ := e
      by_cases hak : a = k <;> by_cases hk2 : k2 = k <;> by_cases hak2 : a = k2 <;>
        simp_all [mapDelete, mapGet, List.filter_cons]

theorem mapGet_foldl_mapDelete (ks : List String) (m : SessionMap) (sid : String) :
    mapGet (ks.foldl mapDelete m) sid = if sid ∈ ks then none else mapGet m sid := by
  induction ks generalizing m with
  | nil => simp
  | cons k ks ih =>
      rw [List.foldl_cons, ih]
      by_cases h1 : sid ∈ ks <;> by_cases h2 : sid = k <;>
        simp [h1, h2, mapGet_mapDelete]

theorem foldl_mapDelete_eq_filter (ks : List String) (m : SessionMap) :
    ks.foldl mapDelete m = m.filter (fun e => decide (e.1 ∉ ks)) := by
  induction ks generalizing m with
  | nil => simp
  | cons k ks ih =>
      rw [List.foldl_cons, ih, mapDelete, List.filter_filter]
      have hp : (fun e : String × Session => decide (e.1 ∉ ks) && decide (e.1 ≠ k))
          = (fun e : String × Session => decide (e.1 ∉ k :: ks)) := by
        funext e
        by_cases h1 : e.1 = k <;> by_cases h2 : e.1 ∈ ks <;> simp [h1, h2]
      rw [hp]

theorem mapGet_mem (st : SessionMap) (sid : String) (s : Session)
    (h : mapGet st sid = some s) : (sid, s) ∈ st := by
  induction st with
  | nil => simp [mapGet] at h
  | cons e rest ih =>
      obtain ⟨k, v⟩ := e
      by_cases hk : k = sid
      · subst hk
        simp [mapGet] at h
        simp [h]
      · simp [mapGet, hk] at h
        exact List.mem_cons_of_mem _ (ih h)

theorem mapWF_key_unique (st : SessionMap) (hwf : mapWF st)
    (e1 e2 : String × Session) (h1 : e1 ∈ st) (h2 : e2 ∈ st)
    (hk : e1.1 = e2.1) : e1 = e2 := by
  induction st with
  | nil => simp at h1
  | cons a rest ih =>
      have hnotin : a.1 ∉ rest.map Prod.fst := (List.nodup_cons.mp hwf).1
      have hwf' : mapWF rest := (List.nodup_cons.mp hwf).2
      rcases List.mem_cons.mp h1 with h1a | h1r
      · rcases List.mem_cons.mp h2 with h2a | h2r
        · rw [h1a, h2a]
        · exfalso
          apply hnotin
          rw [h1a] at hk
          rw [hk]
          exact List.mem_map_of_mem Prod.fst h2r
      · rcases List.mem_cons.mp h2 with h2a | h2r
        · exfalso
          apply hnotin
          rw [h2a] at hk
          rw [← hk]
          exact List.mem_map_of_mem Prod.fst h1r
        · exact ih hwf' h1r h2r

theorem Captures.get_set_isSome (c : Captures) (t ty : String) (r : CaptureRecord)
    (h : (c.get t).isSome = true) : ((c.set ty r).get t).isSome = true := by
  by_cases hty1 : ty = "person" <;> by_cases hty2 : ty = "vehicle" <;>
    by_cases ht1 : t = "person" <;> by_cases ht2 : t = "vehicle" <;>
      simp_all [Captures.get, Captures.set]

theorem isSessionComplete_set (s : Session) (ty : String) (r : CaptureRecord)
    (u : Option Int) (h : isSessionComplete s = true) :
    isSessionComplete
      { s with captures := s.captures.set ty r, updatedAt := u } = true := by
  unfold isSessionComplete at h ⊢
  rw [List.all_eq_true] at h ⊢
  intro t ht
  exact Captures.get_set_isSome _ _ _ _ (h t ht)

theorem filter_head?_eq_find? (l : List α) (p : α → Bool) :
    (l.filter p).head? = l.find? p := by
  induction l with
  | nil => rfl
  | cons a l ih => by_cases h : p a <;> simp [List.filter_cons, List.find?, h, ih]

theorem getNextAction_of_complete (s : Session) (h : isSessionComplete s = true) :
    getNextAction s = "complete_session" := by
  unfold getNextAction
  have hnil : (getAvailableCaptures s.mode).filter
      (fun t => (s.captures.get t).isNone) = [] := by
    rw [List.filter_eq_nil_iff]
    intro t ht
    have h2 := List.all_eq_true.mp h t ht
    cases hcap : s.captures.get t <;> simp_all
  rw [hnil]

theorem getNextAction_of_find (s : Session) (t : String)
    (hfind : (getAvailableCaptures s.mode).find?
      (fun u => (s.captures.get u).isNone) = some t) :
    getNextAction s = "capture_" ++ t := by
  rw [← filter_head?_eq_find?] at hfind
  unfold getNextAction
  cases hcase : (getAvailableCaptures s.mode).filter
      (fun u => (s.captures.get u).isNone) with
  | nil =>
      rw [hcase] at hfind
      simp at hfind
  | cons a l =>
      rw [hcase] at hfind
      simp only [List.head?_cons, Option.some.injEq] at hfind
      rw [hfind]

theorem isSessionComplete_false_nextAction (s : Session)
    (h : isSessionComplete s = false) :
    ∃ t, (getAvailableCaptures s.mode).find?
        (fun u => (s.captures.get u).isNone) = some t ∧
      getNextAction s = "capture_" ++ t := by
  unfold isSessionComplete at h
  unfold getNextAction
  cases hfc : (getAvailableCaptures s.mode).filter
      (fun u => (s.captures.get u).isNone) with
  | nil =>
      exfalso
      have hall : (getAvailableCaptures s.mode).all
          (fun t => (s.captures.get t).isSome) = true := by
        rw [List.all_eq_true]
        intro u hu
        have hne := List.filter_eq_nil_iff.mp hfc u hu
        cases hcap : s.captures.get u
        · exact absurd (by rw [hcap]; rfl) hne
        · rfl
      rw [hall] at h
      cases h
  | cons a l =>
      refine ⟨a, ?_, rfl⟩
      rw [← filter_head?_eq_find?, hfc]
      rfl

theorem mem_expired_iff (st : SessionMap) (hwf : mapWF st)
    (p : String × Session → Bool) (e : String × Session) (he : e ∈ st) :
    e.1 ∈ (st.filter p).map Prod.fst ↔ p e = true := by
  constructor
  · intro hmem
    obtain ⟨e2, he2, heq⟩ := List.mem_map.mp hmem
    have he3 := List.mem_filter.mp he2
    have heq2 : e2 = e := mapWF_key_unique st hwf e2 e he3.1 he heq
    rw [← heq2]
    exact he3.2
  · intro hp
    exact List.mem_map.mpr ⟨e, List.mem_filter.mpr ⟨he, hp⟩, rfl⟩

theorem cleanup_eq (st : SessionMap) (maxAge now : Int) (hwf : mapWF st) :
    (cleanupExpiredSessions st maxAge now).1 =
      st.filter (fun e => !decide (now - e.2.createdAt > maxAge)) ∧
    (cleanupExpiredSessions st maxAge now).2 =
      (st.filter (fun e => decide (now - e.2.createdAt > maxAge))).length := by
  constructor
  · show ((st.filter (fun e => decide (now - e.2.createdAt > maxAge))).map
        Prod.fst).foldl mapDelete st = _
    rw [foldl_mapDelete_eq_filter]
    apply List.filter_congr
    intro e he
    have hiff := mem_expired_iff st hwf
      (fun e => decide (now - e.2.createdAt > maxAge)) e he
    cases hb : decide (now - e.2.createdAt > maxAge) with
    | true =>
        have hmem := hiff.mpr hb
        simp [hmem, hb]
    | false =>
        have hmem : ¬ e.1 ∈ ((st.filter
            (fun e => decide (now - e.2.createdAt > maxAge))).map Prod.fst) := by
          intro hmem
          have h3 : decide (now - e.2.createdAt > maxAge) = true := hiff.mp hmem
          rw [hb] at h3
          cases h3
        simp [hmem, hb]
  · show ((st.filter (fun e => decide (now - e.2.createdAt > maxAge))).map
        Prod.fst).length = _
    rw [List.length_map]

theorem getAvailableCaptures_none : getAvailableCaptures none = [] := rfl

theorem getAvailableCaptures_ped :
    getAvailableCaptures (some "pedestrian") = ["person"] := rfl

theorem getAvailableCaptures_veh :
    getAvailableCaptures (some "vehicle") = ["person", "vehicle"] := rfl

theorem processCapture_ok (st : SessionMap) (sid ct : String) (r : StorageResult)
    (now : Int) (s : Session) (hs : mapGet st sid = some s)
    (hct : ct = "person" ∨ ct = "vehicle")
    (hallow : ¬(s.mode = some "pedestrian" ∧ ct = "vehicle")) :
    processCapture st sid ct (.ok r) now =
      (mapSet st sid (updSession s ct r now),
        .ok { success := true, captureType := ct, imageId := r.fileId,
              sessionComplete := isSessionComplete (updCore s ct r now),
              nextAction := getNextAction (updSession s ct r now) }) := by
  rcases hct with h | h <;> subst h
  · simp [processCapture, hs]
  · have hmode : ¬ s.mode = some "pedestrian" := fun hp => hallow ⟨hp, rfl⟩
    simp [processCapture, hs, hmode]

theorem processCapture_err (st : SessionMap) (sid ct : String) (e : String)
    (now : Int) (s : Session) (hs : mapGet st sid = some s)
    (hct : ct = "person" ∨ ct = "vehicle")
    (hallow : ¬(s.mode = some "pedestrian" ∧ ct = "vehicle")) :
    processCapture st sid ct (.error e) now = (st, .error e) := by
  rcases hct with h | h <;> subst h
  · simp [processCapture, hs]
  · have hmode : ¬ s.mode = some "pedestrian" := fun hp => hallow ⟨hp, rfl⟩
    simp [processCapture, hs, hmode]

/-!
## Claim theorems
-/

/-- C2: if the storage call inside `processCapture` fails, the error
propagates unchanged to the caller and the live session mapping — hence
the session, its captures, `status`, `updatedAt` and `completedAt` — is
exactly the pre-call state. -/
theorem c2_processCapture_storage_failure
    (st : SessionMap) (sid captureType : String) (now : Int) (e : String)
    (s : Session) (hs : mapGet st sid = some s)
    (hct : captureType = "person" ∨ captureType = "vehicle")
    (hallow : ¬(s.mode = some "pedestrian" ∧ captureType = "vehicle")) :
    processCapture st sid captureType (.error e) now = (st, .error e) :=
  processCapture_err st sid captureType e now s hs hct hallow

/-- Witness for C2: a concrete pedestrian-mode session and a failing
storage call. -/
theorem c2_witness :
    processCapture [("s1", sessPedT)] "s1" "person"
        (.error "Failed to encrypt image") 2 =
      ([("s1", sessPedT)], .error "Failed to encrypt image") :=
  c2_processCapture_storage_failure _ _ _ _ _ sessPedT rfl (Or.inl rfl) (by decide)

/-- C3 (amended): in a pedestrian-mode session every `vehicle` capture
fails with the message "Vehicle capture not allowed in pedestrian mode"
(the source capitalizes the first word), a `person` capture whose
storage call succeeds returns success, and the mode check rejects no
other combination: with a valid capture type and a successful storage
outcome every mode/captureType combination other than
pedestrian+vehicle succeeds. -/
theorem c3_pedestrian_mode_policy
    (st : SessionMap) (sid : String) (s : Session)
    (hs : mapGet st sid = some s) (hm : s.mode = some "pedestrian") :
    (∀ (store : Except String StorageResult) (now : Int),
        processCapture st sid "vehicle" store now =
          (st, .error "Vehicle capture not allowed in pedestrian mode")) ∧
    (∀ (st2 : SessionMap) (sid2 : String) (s2 : Session) (ct : String)
        (r : StorageResult) (now : Int), mapGet st2 sid2 = some s2 →
        (ct = "person" ∨ ct = "vehicle") →
        ¬(s2.mode = some "pedestrian" ∧ ct = "vehicle") →
        ∃ resp, (processCapture st2 sid2 ct (.ok r) now).2 = .ok resp ∧
          resp.success = true) := by
  constructor
  · intro store now
    simp [processCapture, hs, hm]
  · intro st2 sid2 s2 ct r now hs2 hct hallow
    rw [processCapture_ok st2 sid2 ct r now s2 hs2 hct hallow]
    exact ⟨_, rfl, rfl⟩

/-- C3 counterexample: the claim quotes the message with a lowercase
"v"; the code produces the capitalized message, so the call does not
fail with the message the claim states. -/
theorem c3_counterexample :
    (processCapture [("s1", sessPedT)] "s1" "vehicle" (.ok srT) 2).2 =
      .error "Vehicle capture not allowed in pedestrian mode" ∧
    (processCapture [("s1", sessPedT)] "s1" "vehicle" (.ok srT) 2).2 ≠
      .error "vehicle capture not allowed in pedestrian mode" := by
  decide

/-- Witness for C3 at a concrete pedestrian-mode session. -/
theorem c3_witness :
    processCapture [("s1", sessPedT)] "s1" "vehicle" (.ok srT) 2 =
      ([("s1", sessPedT)], .error "Vehicle capture not allowed in pedestrian mode") ∧
    ∃ resp, (processCapture [("s1", sessPedT)] "s1" "person" (.ok srT) 2).2 =
        .ok resp ∧ resp.success = true := by
  obtain ⟨ha, hb⟩ := c3_pedestrian_mode_policy [("s1", sessPedT)] "s1" sessPedT rfl rfl
  exact ⟨ha (.ok srT) 2, hb [("s1", sessPedT)] "s1" sessPedT "person" srT 2 rfl
    (Or.inl rfl) (by decide)⟩

/-- C4 (amended): `completeSession` on a known session that is not
`completed` fails with "Session is not ready for completion" (the
source capitalizes the first word) and leaves the mapping unchanged; on
a `completed` session it returns a summary whose `totalCaptures` counts
the non-absent capture descriptors and deletes the session, after which
a second `completeSession` and `getSession` both fail with the
not-found error. -/
theorem c4_completeSession_spec
    (st : SessionMap) (sid : String) (s : Session)
    (hs : mapGet st sid = some s) :
    (s.status ≠ "completed" →
      completeSession st sid = (st, .error "Session is not ready for completion")) ∧
    (s.status = "completed" →
      ∃ summary, completeSession st sid = (mapDelete st sid, .ok summary) ∧
        summary.totalCaptures =
          ([s.captures.person, s.captures.vehicle].filter Option.isSome).length ∧
        mapGet (mapDelete st sid) sid = none ∧
        completeSession (mapDelete st sid) sid =
          (mapDelete st sid, .error ("Session not found: " ++ sid)) ∧
        getSession (mapDelete st sid) sid =
          .error ("Session not found: " ++ sid)) := by
  constructor
  · intro hst
    simp only [completeSession, hs, if_pos hst]
  · intro hst
    have hne : ¬ s.status ≠ "completed" := by simp [hst]
    have hdel : mapGet (mapDelete st sid) sid = none := by
      rw [mapGet_mapDelete]
      simp
    have hcomp : completeSession st sid = (mapDelete st sid,
        .ok { sessionId := sid, residentInfo := s.residentInfo, mode := s.mode,
              captures := s.captures, createdAt := s.createdAt,
              completedAt := s.completedAt,
              totalCaptures := totalCapturesOf s.captures }) := by
      simp only [completeSession, hs, if_neg hne]
    refine ⟨_, hcomp, rfl, hdel, ?_, ?_⟩
    · simp only [completeSession, hdel]
    · simp only [getSession, hdel]

/-- C4 counterexample: the claim quotes the message with a lowercase
"s"; the code produces the capitalized message. -/
theorem c4_counterexample :
    (completeSession [("s1", sessPedT)] "s1").2 =
      .error "Session is not ready for completion" ∧
    (completeSession [("s1", sessPedT)] "s1").2 ≠
      .error "session is not ready for completion" := by
  decide

/-- Witness for C4 at a concrete completed session. -/
theorem c4_witness :
    ∃ summary, completeSession [("s1", sessDoneT)] "s1" =
        (mapDelete [("s1", sessDoneT)] "s1", .ok summary) ∧
      summary.totalCaptures =
        ([sessDoneT.captures.person, sessDoneT.captures.vehicle].filter
          Option.isSome).length ∧
      mapGet (mapDelete [("s1", sessDoneT)] "s1") "s1" = none ∧
      completeSession (mapDelete [("s1", sessDoneT)] "s1") "s1" =
        (mapDelete [("s1", sessDoneT)] "s1", .error ("Session not found: " ++ "s1")) ∧
      getSession (mapDelete [("s1", sessDoneT)] "s1") "s1" =
        .error ("Session not found: " ++ "s1") :=
  (c4_completeSession_spec [("s1", sessDoneT)] "s1" sessDoneT rfl).2 rfl

/-- C5: `retrieveImage` never returns plaintext bytes: whatever the
metadata lookup, the file read and the stored bytes, it fails — and
always with the single wrapped message "Failed to retrieve image", so a
missing metadata record and an authentication-tag failure are not
distinguishable, and no successful return exists
(`crypto.createDecipherGCM` is not a Node crypto API member, so
decryption always throws). -/
theorem c5_retrieveImage_always_fails (metadataLookup : Option ImageMetadata)
    (readFileResult : Except String (List Nat)) (key : List Nat) :
    retrieveImage metadataLookup readFileResult key =
      .error "Failed to retrieve image" := by
  cases metadataLookup with
  | none => rfl
  | some m =>
      cases readFileResult with
      | error e => rfl
      | ok b => rfl

/-- C6: `encryptImage` never produces the `nonce ∥ authTag ∥ ciphertext`
layout and `decryptImage` never decrypts: `crypto.createCipherGCM` and
`crypto.createDecipherGCM` do not exist in Node's crypto module, so both
calls always fail, and the round-trip `decryptImage (encryptImage b) = b`
holds for no buffer. -/
theorem c6_encrypt_decrypt_always_fail (key iv buf enc : List Nat) :
    encryptImage key iv buf = .error "Failed to encrypt image" ∧
    decryptImage key enc = .error "Failed to decrypt image" :=
  ⟨rfl, rfl⟩

/-- C9: for every successful `storeImage` call, the returned metadata's
`compressionRatio` equals `(1 − encryptedSize/originalSize) · 100`,
where `originalSize` is the input buffer length and `encryptedSize`
(the record's `fileSize`) is the length of the final encrypted stored
bytes.  The sharp re-encoding, the `this.encryptImage` method call and
the filesystem writes are oracle parameters of the pipeline, as in the
repository's unit tests. -/
theorem c9_storeImage_compressionRatio
    (env : StoreEnv) (maxFileSize : Nat) (imageBuffer : List Nat)
    (ri : ResidentInfo) (ct : String) (ts : Int) (res : StoreResponse)
    (h : storeImage env maxFileSize imageBuffer ri ct ts = .ok res) :
    ∃ processed encrypted,
      env.processImage imageBuffer = .ok processed ∧
      env.encryptImage processed = .ok encrypted ∧
      res.metadata.originalSize = imageBuffer.length ∧
      res.metadata.fileSize = encrypted.length ∧
      res.metadata.compressionRatio =
        (1 - (encrypted.length : ℚ) / (imageBuffer.length : ℚ)) * 100 ∧
      res.metadata.compressionRatio =
        (1 - (res.metadata.fileSize : ℚ) / (res.metadata.originalSize : ℚ)) * 100 := by
  unfold storeImage at h
  by_cases h0 : imageBuffer.length = 0
  · rw [if_pos h0] at h
    cases h
  · rw [if_neg h0] at h
    by_cases hmax : imageBuffer.length > maxFileSize
    · rw [if_pos hmax] at h
      cases h
    · rw [if_neg hmax] at h
      cases hproc : env.processImage imageBuffer with
      | error e =>
          simp only [hproc] at h
          exact Except.noConfusion h
      | ok processed =>
          cases henc : env.encryptImage processed with
          | error e =>
              simp only [hproc, henc] at h
              exact Except.noConfusion h
          | ok encrypted =>
              cases hwf : env.writeFile with
              | error e =>
                  simp only [hproc, henc, hwf] at h
                  exact Except.noConfusion h
              | ok u =>
                  cases hwj : env.writeJson with
                  | error e =>
                      simp only [hproc, henc, hwf, hwj] at h
                      exact Except.noConfusion h
                  | ok u2 =>
                      simp only [hproc, henc, hwf, hwj] at h
                      cases h
                      exact ⟨processed, encrypted, rfl, henc, rfl, rfl, rfl, rfl⟩

/-- Witness for C9: a concrete 4-byte buffer stored through a fully
successful oracle environment yields 5 encrypted bytes and a
compression ratio of −25 percent. -/
theorem c9_witness :
    ∃ processed encrypted,
      envT.processImage [1, 2, 3, 4] = .ok processed ∧
      envT.encryptImage processed = .ok encrypted ∧
      resT.metadata.originalSize = ([1, 2, 3, 4] : List Nat).length ∧
      resT.metadata.fileSize = encrypted.length ∧
      resT.metadata.compressionRatio =
        (1 - (encrypted.length : ℚ) / (([1, 2, 3, 4] : List Nat).length : ℚ)) * 100 ∧
      resT.metadata.compressionRatio =
        (1 - (resT.metadata.fileSize : ℚ) / (resT.metadata.originalSize : ℚ)) * 100 :=
  c9_storeImage_compressionRatio envT 5242880 [1, 2, 3, 4] riT "person" 0 resT rfl

/-- C10: `processCapture` with type `person` and a successful storage
call on a live session whose mode was never set is accepted; the
required-captures list for an unset mode is empty, so the session is
immediately completed with `completedAt` stamped, `sessionComplete` is
true and `nextAction` is `complete_session`. -/
theorem c10_unset_mode_completes
    (st : SessionMap) (sid : String) (s : Session) (r : StorageResult) (now : Int)
    (hs : mapGet st sid = some s) (hm : s.mode = none) :
    ∃ st' resp s', processCapture st sid "person" (.ok r) now = (st', .ok resp) ∧
      resp.success = true ∧ mapGet st' sid = some s' ∧
      getAvailableCaptures s'.mode = [] ∧ s'.status = "completed" ∧
      s'.completedAt = some now ∧ resp.sessionComplete = true ∧
      resp.nextAction = "complete_session" := by
  have hcore : isSessionComplete (updCore s "person" r now) = true := by
    unfold isSessionComplete
    have hmode : (updCore s "person" r now).mode = none := hm
    rw [hmode, getAvailableCaptures_none]
    rfl
  have hupd : updSession s "person" r now =
      { updCore s "person" r now with status := "completed", completedAt := some now } := by
    unfold updSession
    rw [if_pos hcore]
  refine ⟨_, _, _,
    processCapture_ok st sid "person" r now s hs (Or.inl rfl) (by simp [hm]),
    rfl, mapGet_mapSet_self _ _ _, ?_, ?_, ?_, hcore, ?_⟩
  · rw [hupd]
    show getAvailableCaptures s.mode = []
    rw [hm]
    rfl
  · rw [hupd]
  · rw [hupd]
  · exact getNextAction_of_complete _ (by rw [hupd]; exact hcore)

/-- C1 counterexample: the claimed biconditional fails at a reachable
state.  A pedestrian session that completed (person captured,
`status = "completed"`) is re-moded to `vehicle` — `setCaptureMode`
permits this unconditionally — and a further `processCapture` of a
person image succeeds; afterwards the session's mode is `vehicle` and
its status is still `completed`, yet the required vehicle descriptor is
absent, so "status is completed iff every capture type required by the
mode has a non-absent descriptor" is false after that successful
capture. -/
theorem c1_counterexample :
    (setCaptureMode [("s1", sessPedDoneT)] "s1" "vehicle" 3).2 =
      .ok { sessionId := "s1", mode := "vehicle", status := "ready_for_capture",
            availableCaptures := ["person", "vehicle"] } ∧
    (processCapture stWrongMode "s1" "person" (.ok srT) 4).2 =
      .ok { success := true, captureType := "person", imageId := "img-123",
            sessionComplete := false, nextAction := "capture_vehicle" } ∧
    (mapGet stWrongModeCaptured "s1").map Session.status = some "completed" ∧
    (mapGet stWrongModeCaptured "s1").map Session.mode = some (some "vehicle") ∧
    (mapGet stWrongModeCaptured "s1").map
      (fun s => (getAvailableCaptures s.mode).all
        (fun t => (s.captures.get t).isSome)) = some false := by
  decide

/-- C1 (amended): after a successful `processCapture` on a live session
whose mode is pedestrian or vehicle and whose status is not yet
`completed`, the session's status is `completed` iff every capture type
required by the mode (pedestrian → [person]; vehicle →
[person, vehicle]) has a non-absent descriptor; the returned
`sessionComplete` flag equals that completeness check, when complete
`nextAction` is `complete_session`, and otherwise `nextAction` is
`capture_<t>` for the first still-missing required type in mode order.
The not-yet-completed precondition is forced by the counterexample:
`setCaptureMode` re-assigns the mode of an already-`completed` session
unconditionally, after which `status = "completed"` persists through a
further successful capture even though the new mode's requirements are
unmet. -/
theorem c1_processCapture_completion
    (st : SessionMap) (sid ctype m : String) (r : StorageResult) (now : Int)
    (s : Session) (hs : mapGet st sid = some s) (hm : s.mode = some m)
    (_hmode : m = "pedestrian" ∨ m = "vehicle")
    (hct : ctype = "person" ∨ ctype = "vehicle")
    (hallow : ¬(m = "pedestrian" ∧ ctype = "vehicle"))
    (hst : s.status ≠ "completed") :
    ∃ st' resp s',
      processCapture st sid ctype (.ok r) now = (st', .ok resp) ∧
      mapGet st' sid = some s' ∧ s'.mode = some m ∧
      (s'.status = "completed" ↔
        (getAvailableCaptures (some m)).all
          (fun t => (s'.captures.get t).isSome) = true) ∧
      getAvailableCaptures (some "pedestrian") = ["person"] ∧
      getAvailableCaptures (some "vehicle") = ["person", "vehicle"] ∧
      resp.sessionComplete = isSessionComplete s' ∧
      (isSessionComplete s' = true →
        resp.sessionComplete = true ∧ resp.nextAction = "complete_session") ∧
      (isSessionComplete s' = false →
        ∃ t, (getAvailableCaptures (some m)).find?
            (fun u => (s'.captures.get u).isNone) = some t ∧
          resp.nextAction = "capture_" ++ t) := by
  have hallow' : ¬(s.mode = some "pedestrian" ∧ ctype = "vehicle") := by
    rw [hm]
    intro hcon
    exact hallow ⟨Option.some.inj hcon.1, hcon.2⟩
  have heq := processCapture_ok st sid ctype r now s hs hct hallow'
  set s1 := updCore s ctype r now with hs1
  by_cases hc : isSessionComplete s1 = true
  · have hupd : updSession s ctype r now =
        { s1 with status := "completed", completedAt := some now } := by
      unfold updSession
      rw [← hs1, if_pos hc]
    rw [hupd] at heq
    refine ⟨_, _, _, heq, mapGet_mapSet_self _ _ _, hm, ?_, rfl, rfl, ?_, ?_, ?_⟩
    · constructor
      · intro _
        rw [← hm]
        exact hc
      · intro _
        rfl
    · exact rfl
    · intro _
      refine ⟨hc, ?_⟩
      exact getNextAction_of_complete _ hc
    · intro hf
      exact absurd (show isSessionComplete s1 = false from hf) (by simp [hc])
  · have hcf : isSessionComplete s1 = false := by
      cases hx : isSessionComplete s1
      · rfl
      · exact absurd hx hc
    have hupd : updSession s ctype r now = s1 := by
      unfold updSession
      rw [← hs1, if_neg hc]
    rw [hupd] at heq
    refine ⟨_, _, _, heq, mapGet_mapSet_self _ _ _, hm, ?_, rfl, rfl, rfl, ?_, ?_⟩
    · constructor
      · intro hst2
        exact absurd (show s.status = "completed" from hst2) hst
      · intro hall
        have hs1c : isSessionComplete s1 = true := by
          unfold isSessionComplete
          rw [show s1.mode = some m from hm]
          exact hall
        exact absurd hs1c hc
    · intro ht
      exact absurd ht hc
    · intro hf
      obtain ⟨t, hfind, hact⟩ :=
        isSessionComplete_false_nextAction s1 (show isSessionComplete s1 = false from hf)
      rw [show s1.mode = some m from hm] at hfind
      exact ⟨t, hfind, hact⟩

/-- Witness for C1 at a concrete vehicle-mode session capturing a
person image: the session is not yet complete and the next action names
the missing vehicle capture. -/
theorem c1_witness :
    ∃ st' resp s',
      processCapture [("s1", sessVehT)] "s1" "person" (.ok srT) 2 = (st', .ok resp) ∧
      mapGet st' "s1" = some s' ∧ s'.mode = some "vehicle" ∧
      (s'.status = "completed" ↔
        (getAvailableCaptures (some "vehicle")).all
          (fun t => (s'.captures.get t).isSome) = true) ∧
      getAvailableCaptures (some "pedestrian") = ["person"] ∧
      getAvailableCaptures (some "vehicle") = ["person", "vehicle"] ∧
      resp.sessionComplete = isSessionComplete s' ∧
      (isSessionComplete s' = true →
        resp.sessionComplete = true ∧ resp.nextAction = "complete_session") ∧
      (isSessionComplete s' = false →
        ∃ t, (getAvailableCaptures (some "vehicle")).find?
            (fun u => (s'.captures.get u).isNone) = some t ∧
          resp.nextAction = "capture_" ++ t) :=
  c1_processCapture_completion [("s1", sessVehT)] "s1" "person" "vehicle" srT 2
    sessVehT rfl rfl (Or.inr rfl) (Or.inl rfl) (by decide) (by decide)

/-- C7 (amended): the expiry sweep removes a live session exactly when
its age `now − createdAt` strictly exceeds `maxAgeMs`; the returned
count plus the surviving count is the pre-sweep count, so the sweep
returns exactly the number removed; and `cleanupExpiredSessions(0)`
removes every live session whose age is positive — in particular, when
every live session was created strictly before the sweep instant, it
removes all of them, returns their exact number, and
`getActiveSessionsCount` is zero afterwards. -/
theorem c7_cleanup_spec (st : SessionMap) (maxAge now : Int) (hwf : mapWF st) :
    (∀ sid s, mapGet st sid = some s →
      mapGet (cleanupExpiredSessions st maxAge now).1 sid =
        if now - s.createdAt > maxAge then none else some s) ∧
    getActiveSessionsCount (cleanupExpiredSessions st maxAge now).1 +
      (cleanupExpiredSessions st maxAge now).2 = getActiveSessionsCount st ∧
    ((∀ e ∈ st, 0 < now - e.2.createdAt) →
      (cleanupExpiredSessions st 0 now).1 = [] ∧
      (cleanupExpiredSessions st 0 now).2 = getActiveSessionsCount st ∧
      getActiveSessionsCount (cleanupExpiredSessions st 0 now).1 = 0) := by
  refine ⟨?_, ?_, ?_⟩
  · intro sid s hsome
    have hmemst := mapGet_mem st sid s hsome
    have hiff := mem_expired_iff st hwf
      (fun e => decide (now - e.2.createdAt > maxAge)) (sid, s) hmemst
    show mapGet (((st.filter (fun e => decide (now - e.2.createdAt > maxAge))).map
        Prod.fst).foldl mapDelete st) sid = _
    rw [mapGet_foldl_mapDelete]
    by_cases hp : now - s.createdAt > maxAge
    · rw [if_pos (hiff.mpr (decide_eq_true hp)), if_pos hp]
    · have hnm : ¬ sid ∈ (st.filter
          (fun e => decide (now - e.2.createdAt > maxAge))).map Prod.fst := by
        intro hmem
        exact hp (of_decide_eq_true (hiff.mp hmem))
      rw [if_neg hnm, if_neg hp, hsome]
  · obtain ⟨h1, h2⟩ := cleanup_eq st maxAge now hwf
    show (cleanupExpiredSessions st maxAge now).1.length + _ = st.length
    rw [h1, h2]
    have h3 := List.length_eq_length_filter_add
      (l := st) (fun e => decide (now - e.2.createdAt > maxAge))
    omega
  · intro hall
    obtain ⟨h1, h2⟩ := cleanup_eq st 0 now hwf
    have hp0 : ∀ e ∈ st, decide (now - e.2.createdAt > 0) = true :=
      fun e he => decide_eq_true (hall e he)
    have hnil : (cleanupExpiredSessions st 0 now).1 = [] := by
      rw [h1, List.filter_eq_nil_iff]
      intro e he
      rw [hp0 e he]
      decide
    refine ⟨hnil, ?_, ?_⟩
    · rw [h2, List.filter_eq_self.mpr hp0]
      rfl
    · rw [show getActiveSessionsCount (cleanupExpiredSessions st 0 now).1 =
        (cleanupExpiredSessions st 0 now).1.length from rfl, hnil]
      rfl

/-- C7 counterexample: a session created at the very instant of the
sweep has age 0, which does not strictly exceed 0, so
`cleanupExpiredSessions(0)` keeps it: the sweep does not remove every
live session, and the count afterwards is not zero. -/
theorem c7_counterexample :
    cleanupExpiredSessions [("s1", sessT)] 0 0 = ([("s1", sessT)], 0) ∧
    getActiveSessionsCount (cleanupExpiredSessions [("s1", sessT)] 0 0).1 = 1 := by
  decide

/-- Witness for C7 on a concrete two-session map swept at an instant
strictly after both creations. -/
theorem c7_witness :
    (∀ sid s, mapGet [("s1", sessT), ("s2", sessPedT)] sid = some s →
      mapGet (cleanupExpiredSessions [("s1", sessT), ("s2", sessPedT)] 0 5).1 sid =
        if 5 - s.createdAt > 0 then none else some s) ∧
    getActiveSessionsCount (cleanupExpiredSessions [("s1", sessT), ("s2", sessPedT)] 0 5).1 +
      (cleanupExpiredSessions [("s1", sessT), ("s2", sessPedT)] 0 5).2 =
      getActiveSessionsCount [("s1", sessT), ("s2", sessPedT)] ∧
    ((∀ e ∈ [("s1", sessT), ("s2", sessPedT)], 0 < 5 - e.2.createdAt) →
      (cleanupExpiredSessions [("s1", sessT), ("s2", sessPedT)] 0 5).1 = [] ∧
      (cleanupExpiredSessions [("s1", sessT), ("s2", sessPedT)] 0 5).2 =
        getActiveSessionsCount [("s1", sessT), ("s2", sessPedT)] ∧
      getActiveSessionsCount
        (cleanupExpiredSessions [("s1", sessT), ("s2", sessPedT)] 0 5).1 = 0) :=
  c7_cleanup_spec [("s1", sessT), ("s2", sessPedT)] 0 5 (by decide)

theorem step_mapGet_none (st : SessionMap) (op : Op) (sid : String)
    (hop : op.sparesMode sid) (h0 : mapGet st sid = none) :
    mapGet (step st op) sid = none := by
  cases op with
  | start otp search newSid now =>
      have hop' : newSid ≠ sid := hop
      have hne : sid ≠ newSid := fun hh => hop' hh.symm
      by_cases ht : strTrim otp = ""
      · simp [step, startCaptureSession, ht, h0]
      · cases search with
        | error e => simp [step, startCaptureSession, ht, h0]
        | ok ri =>
            simp only [step, startCaptureSession, if_neg ht]
            rw [mapGet_mapSet_ne _ _ _ _ hne]
            exact h0
  | setMode sid2 mode now => exact (hop : False).elim
  | capture sid2 ct store now =>
      cases hget : mapGet st sid2 with
      | none => simp [step, processCapture, hget, h0]
      | some s2 =>
          have hne : sid ≠ sid2 := by
            intro hh
            subst hh
            rw [hget] at h0
            cases h0
          by_cases hct : ¬(ct = "person" ∨ ct = "vehicle")
          · simp [step, processCapture, hget, hct, h0]
          · by_cases hpol : s2.mode = some "pedestrian" ∧ ct = "vehicle"
            · simp [step, processCapture, hget, hct, hpol, h0]
            · cases store with
              | error e => simp [step, processCapture, hget, hct, hpol, h0]
              | ok r =>
                  simp only [step, processCapture, hget, if_neg hct, if_neg hpol]
                  rw [mapGet_mapSet_ne _ _ _ _ hne]
                  exact h0
  | complete sid2 =>
      cases hget : mapGet st sid2 with
      | none => simp [step, completeSession, hget, h0]
      | some s2 =>
          by_cases hstat : s2.status ≠ "completed"
          · simp [step, completeSession, hget, hstat, h0]
          · simp only [step, completeSession, hget, if_neg hstat]
            rw [mapGet_mapDelete]
            by_cases hss : sid = sid2 <;> simp [hss, h0]
  | cleanup maxAge now =>
      simp only [step, cleanupExpiredSessions]
      rw [mapGet_foldl_mapDelete]
      by_cases hmem : sid ∈ (st.filter
          fun e => decide (now - e.2.createdAt > maxAge)).map Prod.fst <;>
        simp [hmem, h0]

theorem step_mode_preserved (st : SessionMap) (op : Op) (sid : String)
    (s s2 : Session) (hop : op.sparesMode sid) (h0 : mapGet st sid = some s)
    (h1 : mapGet (step st op) sid = some s2) : s2.mode = s.mode := by
  cases op with
  | start otp search newSid now =>
      have hop' : newSid ≠ sid := hop
      have hne : sid ≠ newSid := fun hh => hop' hh.symm
      have heq : mapGet (step st (.start otp search newSid now)) sid =
          mapGet st sid := by
        by_cases ht : strTrim otp = ""
        · simp [step, startCaptureSession, ht]
        · cases search with
          | error e => simp [step, startCaptureSession, ht]
          | ok ri =>
              simp only [step, startCaptureSession, if_neg ht]
              rw [mapGet_mapSet_ne _ _ _ _ hne]
      rw [heq, h0] at h1
      rw [Option.some.inj h1]
  | setMode sid2 mode now => exact (hop : False).elim
  | capture sid2 ct store now =>
      by_cases hss : sid2 = sid
      · subst hss
        by_cases hct : ¬(ct = "person" ∨ ct = "vehicle")
        · simp only [step, processCapture, h0, if_pos hct] at h1
          rw [Option.some.inj h1]
        · by_cases hpol : s.mode = some "pedestrian" ∧ ct = "vehicle"
          · simp only [step, processCapture, h0, if_neg hct, if_pos hpol] at h1
            rw [Option.some.inj h1]
          · cases store with
            | error e =>
                simp only [step, processCapture, h0, if_neg hct, if_neg hpol] at h1
                rw [Option.some.inj h1]
            | ok r =>
                simp only [step, processCapture, h0, if_neg hct, if_neg hpol] at h1
                rw [mapGet_mapSet_self] at h1
                rw [← Option.some.inj h1]
                unfold updSession
                by_cases hcomp : isSessionComplete (updCore s ct r now) = true
                · rw [if_pos hcomp]
                  rfl
                · rw [if_neg hcomp]
                  rfl
      · have heq : mapGet (step st (.capture sid2 ct store now)) sid =
            mapGet st sid := by
          cases hget : mapGet st sid2 with
          | none => simp [step, processCapture, hget]
          | some sx =>
              by_cases hct : ¬(ct = "person" ∨ ct = "vehicle")
              · simp [step, processCapture, hget, hct]
              · by_cases hpol : sx.mode = some "pedestrian" ∧ ct = "vehicle"
                · simp [step, processCapture, hget, hct, hpol]
                · cases store with
                  | error e => simp [step, processCapture, hget, hct, hpol]
                  | ok r =>
                      simp only [step, processCapture, hget, if_neg hct, if_neg hpol]
                      exact mapGet_mapSet_ne _ _ _ _ (fun hh => hss hh.symm)
        rw [heq, h0] at h1
        rw [Option.some.inj h1]
  | complete sid2 =>
      by_cases hss : sid2 = sid
      · subst hss
        by_cases hstat : s.status ≠ "completed"
        · simp only [step, completeSession, h0, if_pos hstat] at h1
          rw [Option.some.inj h1]
        · simp only [step, completeSession, h0, if_neg hstat] at h1
          rw [mapGet_mapDelete, if_pos rfl] at h1
          cases h1
      · have heq : mapGet (step st (.complete sid2)) sid = mapGet st sid := by
          cases hget : mapGet st sid2 with
          | none => simp [step, completeSession, hget]
          | some sx =>
              by_cases hstat : sx.status ≠ "completed"
              · simp [step, completeSession, hget, hstat]
              · simp only [step, completeSession, hget, if_neg hstat]
                rw [mapGet_mapDelete, if_neg (fun hh => hss hh.symm)]
        rw [heq, h0] at h1
        rw [Option.some.inj h1]
  | cleanup maxAge now =>
      simp only [step, cleanupExpiredSessions] at h1
      rw [mapGet_foldl_mapDelete] at h1
      by_cases hmem : sid ∈ (st.filter
          fun e => decide (now - e.2.createdAt > maxAge)).map Prod.fst
      · rw [if_pos hmem] at h1
        cases h1
      · rw [if_neg hmem, h0] at h1
        rw [Option.some.inj h1]

theorem runOps_mapGet_none (st : SessionMap) (ops : List Op) (sid : String)
    (hops : ∀ op ∈ ops, op.sparesMode sid) (h0 : mapGet st sid = none) :
    mapGet (runOps st ops) sid = none := by
  induction ops generalizing st with
  | nil => exact h0
  | cons op rest ih =>
      exact ih (step st op) (fun o ho => hops o (List.mem_cons_of_mem _ ho))
        (step_mapGet_none st op sid (hops op (List.mem_cons_self _ _)) h0)

/-- C8 (amended): no service operation other than `setCaptureMode`
changes a session's mode: for every live session and every sequence of
operations that contains no `setCaptureMode` call and whose
`startCaptureSession` ids are fresh (never the observed session's id —
the service's ids are collision-resistant and never reused), if the
session is still live at the end its mode equals the value it had at
the start.  A repeated `setCaptureMode`, however, does overwrite the
mode (see the counterexample), so the claim as stated is false. -/
theorem c8_mode_immutable (st : SessionMap) (ops : List Op) (sid : String)
    (s s' : Session) (hops : ∀ op ∈ ops, op.sparesMode sid)
    (h0 : mapGet st sid = some s) (h1 : mapGet (runOps st ops) sid = some s') :
    s'.mode = s.mode := by
  induction ops generalizing st s with
  | nil =>
      rw [show runOps st [] = st from rfl, h0] at h1
      rw [Option.some.inj h1]
  | cons op rest ih =>
      have hop := hops op (List.mem_cons_self _ _)
      have hrest := fun o ho => hops o (List.mem_cons_of_mem _ ho)
      have hstep : runOps st (op :: rest) = runOps (step st op) rest := rfl
      rw [hstep] at h1
      cases hmid : mapGet (step st op) sid with
      | none =>
          rw [runOps_mapGet_none (step st op) rest sid hrest hmid] at h1
          cases h1
      | some smid =>
          have hm1 := step_mode_preserved st op sid s smid hop h0 hmid
          have hm2 := ih (step st op) smid hrest hmid h1
          rw [hm2]
          exact hm1

/-- C8 counterexample: `setCaptureMode` is itself a service operation
and re-assigns `mode` unconditionally — after a first successful
assignment to `pedestrian`, a second call succeeds and changes the mode
to `vehicle`, so the mode is not immutable after first assignment. -/
theorem c8_counterexample :
    (setCaptureMode [("s1", sessT)] "s1" "pedestrian" 0).2 =
      .ok { sessionId := "s1", mode := "pedestrian", status := "ready_for_capture",
            availableCaptures := ["person"] } ∧
    (mapGet (setCaptureMode [("s1", sessT)] "s1" "pedestrian" 0).1 "s1").map
      Session.mode = some (some "pedestrian") ∧
    (setCaptureMode (setCaptureMode [("s1", sessT)] "s1" "pedestrian" 0).1
        "s1" "vehicle" 1).2 =
      .ok { sessionId := "s1", mode := "vehicle", status := "ready_for_capture",
            availableCaptures := ["person", "vehicle"] } ∧
    (mapGet (setCaptureMode (setCaptureMode [("s1", sessT)] "s1" "pedestrian" 0).1
        "s1" "vehicle" 1).1 "s1").map Session.mode = some (some "vehicle") := by
  decide

/-- Witness for C8: a capture, a (non-expiring) cleanup sweep, a failed
completion attempt and a fresh session start leave the observed
session's mode untouched. -/
theorem c8_witness : sessPedDoneT.mode = sessPedT.mode :=
  c8_mode_immutable [("s1", sessPedT)]
    [.capture "s1" "person" (.ok srT) 2, .cleanup 100 10, .complete "s2",
      .start "777" (.ok riT) "s9" 11]
    "s1" sessPedT sessPedDoneT
    (by intro op hop; fin_cases hop <;> simp [Op.sparesMode])
    rfl (by decide)

/-- Witness for C10 at a concrete unset-mode session. -/
theorem c10_witness :
    ∃ st' resp s', processCapture [("s1", sessT)] "s1" "person" (.ok srT) 2 =
        (st', .ok resp) ∧
      resp.success = true ∧ mapGet st' "s1" = some s' ∧
      getAvailableCaptures s'.mode = [] ∧ s'.status = "completed" ∧
      s'.completedAt = some 2 ∧ resp.sessionComplete = true ∧
      resp.nextAction = "complete_session" :=
  c10_unset_mode_completes [("s1", sessT)] "s1" sessT srT 2 rfl rfl

end SerenCapture
